import Mathlib

/-!
Verification development for the Study-Ai quiz generation and evaluation
pipeline.  The TypeScript sources are shallowly embedded: strings are
modelled as Lean strings (lists of characters), JavaScript objects as
structures, remote completion calls and JSON parsing as oracle parameters,
and the module-level quiz store as explicit state passed through the
functions that mutate it.  Scores are modelled as rationals, percentages as
integers, and JavaScript Math.round as Mathlib round (both send x to
the floor of x + 1/2).
-/

namespace StudyAi

set_option linter.unusedVariables false

/-! ### Generic string helpers (JavaScript built-ins on lists of characters) -/

/-- Removes leading and trailing whitespace, modelling JavaScript
String.prototype.trim on the character list of a string. -/
def trimL (s : List Char) : List Char :=
  ((s.dropWhile Char.isWhitespace).reverse.dropWhile Char.isWhitespace).reverse

/-- Lower-cases every character, modelling String.prototype.toLowerCase. -/
def toLowerL (s : List Char) : List Char :=
  s.map Char.toLower

/-- Splits on single space characters, modelling String.prototype.split
with separator a single space (consecutive spaces produce empty words,
exactly as in JavaScript). -/
def splitOnSpace (s : List Char) : List (List Char) :=
  match s with
  | [] => [[]]
  | c :: cs =>
    match splitOnSpace cs with
    | [] => [[]]
    | w :: ws => if c = ' ' then [] :: w :: ws else (c :: w) :: ws

/-- Substring test, modelling String.prototype.includes: true when
needle occurs contiguously inside hay. -/
def isSubstr (needle hay : List Char) : Bool :=
  match hay with
  | [] => needle.isEmpty
  | c :: t => needle.isPrefixOf (c :: t) || isSubstr needle t

/-- Occurrence of a pattern as a contiguous substring, the proposition
decided by isSubstr. -/
def OccursIn (p s : List Char) : Prop :=
  ∃ u v, s = u ++ p ++ v

/-- JavaScript object-key assignment on an association list: overwrite in
place when the key exists, append otherwise. -/
def upsert {β : Type} (k : String) (v : β) : List (String × β) → List (String × β)
  | [] => [(k, v)]
  | (k₁, v₁) :: t => if k₁ = k then (k, v) :: t else (k₁, v₁) :: upsert k v t

/-- Fuel-indexed global replacement scanner: at each position, if the
pattern is a (non-empty) prefix the match is replaced and the scan resumes
after it, otherwise the character is kept.  This is the semantics of the
JavaScript text.replace(pattern, replacement) calls with a global literal
pattern.  The fuel argument only makes the recursion structural; it is
instantiated with the length of the string, which is always sufficient. -/
def replaceAllF (p r : List Char) : Nat → List Char → List Char
  | _, [] => []
  | 0, s => s
  | fuel + 1, c :: cs =>
    if p ≠ [] ∧ p.isPrefixOf (c :: cs) then
      r ++ replaceAllF p r fuel (List.drop p.length (c :: cs))
    else
      c :: replaceAllF p r fuel cs

/-- Global left-to-right non-overlapping replacement of a literal pattern. -/
def replaceAll (p r s : List Char) : List Char :=
  replaceAllF p r s.length s

/-! ### Text Normalizer: convertLatexToSymbols (src/lib/actions.ts lines 132-166) -/

/-- Replacement table of convertLatexToSymbols: each LaTeX-style escape
command is rewritten to its Unicode glyph, in source order. -/
def latexReplacements : List (List Char × List Char) :=
  [("\\neq".toList, "≠".toList),
   ("\\leq".toList, "≤".toList),
   ("\\geq".toList, "≥".toList),
   ("\\infty".toList, "∞".toList),
   ("\\in".toList, "∈".toList),
   ("\\subset".toList, "⊂".toList),
   ("\\supset".toList, "⊃".toList),
   ("\\cup".toList, "∪".toList),
   ("\\cap".toList, "∩".toList),
   ("\\emptyset".toList, "∅".toList),
   ("\\pm".toList, "±".toList),
   ("\\times".toList, "×".toList),
   ("\\div".toList, "÷".toList),
   ("\\cdot".toList, "·".toList),
   ("\\rightarrow".toList, "→".toList),
   ("\\leftarrow".toList, "←".toList),
   ("\\Rightarrow".toList, "⇒".toList),
   ("\\Leftarrow".toList, "⇐".toList),
   ("\\xer".toList, "ℝ".toList),
   ("\\yer".toList, "ℝ".toList),
   ("\\mathbb\x7bR\x7d".toList, "ℝ".toList),
   ("\\alpha".toList, "α".toList),
   ("\\beta".toList, "β".toList),
   ("\\theta".toList, "θ".toList),
   ("\\pi".toList, "π".toList)]

/-- Applies each (pattern, replacement) pair of a table in order, the
for-loop of convertLatexToSymbols. -/
def applyReplacements (table : List (List Char × List Char)) (s : List Char) : List Char :=
  match table with
  | [] => s
  | pr :: rest => applyReplacements rest (replaceAll pr.1 pr.2 s)

/-- Embeds convertLatexToSymbols (src/lib/actions.ts lines 132-166): runs
the fixed replacement table over the text. -/
def convertLatexToSymbols (text : String) : String :=
  (applyReplacements latexReplacements text.toList).asString

/-! ### Completion Client with retry (src/unnamed/part_011, generateText) -/

/-- Best-effort JSON object boundary extraction: the span from the first
opening brace to the last closing brace, none when no such span exists.
This is the semantics of matching the regular expression that takes
everything from a first opening brace to a last closing brace, and also of
the indexOf/lastIndexOf slice in createQuiz. -/
def extractJson (s : List Char) : Option (List Char) :=
  let fromBrace := s.dropWhile (fun c => c ≠ '{')
  let span := (fromBrace.reverse.dropWhile (fun c => c ≠ '}')).reverse
  if span.isEmpty then none else some span

namespace OpenRouterRetry

/-- Outcome of one fetch to the completion endpoint, as distinguished by
generateText: HTTP 429, another non-success status, a transport exception,
or an HTTP success whose envelope may or may not carry
choices[0].message.content. -/
inductive Attempt
  | rateLimited (retryAfter : Option Nat)
  | httpError (status : Nat) (body : String)
  | netError (msg : String)
  | success (content : Option String)

/-- Errors surfaced by generateText. -/
inductive GTError
  | apiError (status : Nat) (body : String)
  | network (msg : String)
  | invalidFormat
  | jsonParseFailed
  | unknown
deriving DecidableEq

/-- Result of a generateText run together with the number of fetches it
performed. -/
structure GTResult where
  result : Except GTError String
  attempts : Nat

/-- One iteration of the retry while-loop of generateText
(src/unnamed/part_011 lines 119-205).  The environment maps the retry
counter to the outcome of that fetch.  The remaining argument is the
number of loop iterations still permitted (maxRetries + 1 - retryCount at
the top-level call); it only makes the recursion structural. -/
def generateTextGo (env : Nat → Attempt) (wantJson : Bool) (maxRetries : Nat) :
    Nat → Nat → Option GTError → GTResult
  | 0, retryCount, lastError =>
    -- while-condition failed: surface lastError, or the unknown-error fallback
    ⟨.error (lastError.getD .unknown), retryCount⟩
  | remaining + 1, retryCount, lastError =>
    match env retryCount with
    | .rateLimited _ =>
      -- 429: wait and retry; lastError is not updated on this path
      generateTextGo env wantJson maxRetries remaining (retryCount + 1) lastError
    | .httpError status body =>
      if retryCount < maxRetries then
        -- non-success status: backoff and retry without recording an error
        generateTextGo env wantJson maxRetries remaining (retryCount + 1) lastError
      else
        -- the thrown API error is caught, recorded, and the loop breaks
        ⟨.error (.apiError status body), retryCount + 1⟩
    | .netError msg =>
      if retryCount < maxRetries then
        generateTextGo env wantJson maxRetries remaining (retryCount + 1) (some (.network msg))
      else
        ⟨.error (.network msg), retryCount + 1⟩
    | .success content =>
      match content with
      | none =>
        -- missing choices[0].message.content: thrown, caught, retried
        if retryCount < maxRetries then
          generateTextGo env wantJson maxRetries remaining (retryCount + 1) (some .invalidFormat)
        else
          ⟨.error .invalidFormat, retryCount + 1⟩
      | some c =>
        let content := trimL c.toList
        if wantJson then
          match extractJson content with
          | some j => ⟨.ok j.asString, retryCount + 1⟩
          | none =>
            -- no JSON object found: thrown, caught, retried
            if retryCount < maxRetries then
              generateTextGo env wantJson maxRetries remaining (retryCount + 1) (some .jsonParseFailed)
            else
              ⟨.error .jsonParseFailed, retryCount + 1⟩
        else ⟨.ok content.asString, retryCount + 1⟩

/-- Embeds generateText of src/unnamed/part_011: runs the retry loop from
retryCount 0 with no recorded error.  maxRetries defaults to 3 at the call
sites, giving at most 4 fetches. -/
def generateText (env : Nat → Attempt) (maxRetries : Nat) (wantJson : Bool) : GTResult :=
  generateTextGo env wantJson maxRetries (maxRetries + 1) 0 none

/-- Holds when one fetch outcome lets the surrounding iteration return
successfully: an HTTP success with content whose JSON extraction (in JSON
mode) succeeds. -/
def attemptSucceeds (wantJson : Bool) (a : Attempt) : Bool :=
  match a with
  | .success (some c) => if wantJson then (extractJson (trimL c.toList)).isSome else true
  | _ => false

end OpenRouterRetry

/-! ### Shared quiz data model (src/lib/actions.ts lines 78-117) -/

/-- The two question kinds of the QuizQuestion interface. -/
inductive QuestionType
  | multipleChoice
  | shortAnswer
deriving DecidableEq

/-- The five pedagogical categories of the QuizQuestion interface. -/
inductive QuestionCategory
  | multipleChoice
  | knowledge
  | thinking
  | application
  | communication
deriving DecidableEq

/-- One quiz item, the QuizQuestion interface of src/lib/actions.ts. -/
structure QuizQuestion where
  id : String
  text : String
  type : QuestionType
  category : QuestionCategory
  options : Option (List String)
  answer : String
  explanation : Option String
  rubric : Option String
deriving DecidableEq

/-- A stored quiz, the QuizData interface of src/lib/actions.ts. -/
structure QuizData where
  title : String
  subject : String
  grade : String
  topic : String
  questions : List QuizQuestion
  createdAt : Nat
  totalQuestions : Nat
deriving DecidableEq

/-! ### Quiz response validation of src/lib/openrouter-api.ts (generateText,
lines 233-301) -/

namespace OpenRouterApi

/-- One parsed question as typed by the QuizQuestion interface of
src/lib/openrouter-api.ts (id and options may be absent in the raw JSON). -/
structure ORQuestion where
  id : Option String
  type : QuestionType
  text : String
  options : Option (List String)
  answer : String
  explanation : Option String
deriving DecidableEq

/-- A parsed quiz object, the Quiz interface of src/lib/openrouter-api.ts. -/
structure ORQuiz where
  title : String
  subject : String
  grade : String
  topic : String
  questions : List ORQuestion
deriving DecidableEq

/-- Validates and cleans one question (src/lib/openrouter-api.ts lines
280-293): throws when text is empty or a multiple-choice question does not
carry exactly 4 options; otherwise trims the textual fields and defaults
the id to the 1-based index.  Distinctness of the options and membership
of the answer are not checked.  The falsy test on the question type cannot
fire in the model because the type is a closed enumeration. -/
def cleanQuestion (index : Nat) (q : ORQuestion) : Except String ORQuestion :=
  if q.text = "" ∨ (q.type = .multipleChoice ∧ (q.options.isNone ∨ (q.options.getD []).length ≠ 4)) then
    .error ("Question " ++ toString (index + 1) ++ " has invalid format")
  else
    .ok { id := some (q.id.getD (toString (index + 1))),
          type := q.type,
          text := (trimL q.text.toList).asString,
          options := some (if q.type = .multipleChoice then
                             (q.options.getD []).map (fun o => (trimL o.toList).asString)
                           else []),
          answer := (trimL q.answer.toList).asString,
          explanation := some ((trimL (q.explanation.getD "").toList).asString) }

/-- Maps cleanQuestion over the question array with its index, throwing at
the first invalid question, as the JavaScript map with throw does. -/
def cleanQuestions : Nat → List ORQuestion → Except String (List ORQuestion)
  | _, [] => .ok []
  | i, q :: t =>
    match cleanQuestion i q with
    | .error e => .error e
    | .ok c =>
      match cleanQuestions (i + 1) t with
      | .error e => .error e
      | .ok rest => .ok (c :: rest)

/-- How the raw model output fared through JSON extraction and parsing in
the quiz-generation path of generateText: the first direct JSON.parse
succeeded with a questions array, or only the cleaned-up re-parse
succeeded, or neither. -/
inductive QuizGenOutcome
  | directParsed (quiz : ORQuiz)
  | cleanupParsed (quiz : ORQuiz)
  | unparseable

/-- Embeds the quiz-generation response processing of generateText
(src/lib/openrouter-api.ts lines 233-301).  On the direct-parse fast path
the parsed object is returned as-is with no per-question validation; on
the cleanup path an empty questions array is rejected and each question
goes through cleanQuestion. -/
def processQuizResponse : QuizGenOutcome → Except String ORQuiz
  | .directParsed quiz => .ok quiz
  | .cleanupParsed quiz =>
    if quiz.questions.isEmpty then
      .error "Quiz must contain questions array"
    else
      match cleanQuestions 0 quiz.questions with
      | .error e => .error ("Failed to parse quiz: " ++ e)
      | .ok cleaned => .ok { quiz with questions := cleaned }
  | .unparseable => .error "Invalid response format - expected JSON structure"

end OpenRouterApi

/-! ### Server actions of src/lib/actions.ts: determineSubject and createQuiz -/

namespace Actions

/-- The closed subject enumeration that the subject-classification prompt
(src/lib/actions.ts line 428) instructs the model to choose from. -/
def subjectEnumeration : List String :=
  ["Mathematics", "Physics", "Chemistry", "Biology", "History",
   "English", "Geography", "Computer Science", "Healthcare"]

/-- The cleaning applied by determineSubject to the raw model response
(src/lib/actions.ts line 443): delete every apostrophe, double quote,
period and comma, then trim. -/
def cleanSubjectResponse (response : String) : String :=
  (trimL (response.toList.filter
    (fun c => ¬ (c = Char.ofNat 39 ∨ c = '"' ∨ c = '.' ∨ c = ',')))).asString

/-- Embeds determineSubject (src/lib/actions.ts lines 425-455) applied to
the outcome of its completion call: a failed call propagates, an empty
cleaned response fails, and any other cleaned response is returned as-is.
No comparison against subjectEnumeration is performed. -/
def determineSubject (response : Except Unit String) : Except String String :=
  match response with
  | .error _ => .error "generateText failed"
  | .ok r =>
    let subject := cleanSubjectResponse r
    if subject = "" then .error "Could not determine subject from notes"
    else .ok subject

/-- A quiz object as parsed from the model response in createQuiz, before
the determined subject, grade, topic and timestamps are spliced in. -/
structure ParsedQuiz where
  title : String
  subject : String
  grade : String
  topic : String
  questions : List QuizQuestion
deriving DecidableEq

/-- One entry of the past-quizzes history store. -/
structure PastQuizEntry where
  id : String
  title : String
  subject : String
  grade : String
  topic : String
  createdAt : Nat
  totalQuestions : Nat
deriving DecidableEq

/-- The module-level mutable state of src/lib/actions.ts: the quiz store
and the past-quizzes history. -/
structure Store where
  quizStore : List (String × QuizData)
  pastQuizzesStore : List PastQuizEntry
deriving DecidableEq

/-- Environment of one createQuiz call: the request fields and the
outcomes of the external collaborators (PDF extraction, the three
completion calls, JSON.parse, the clock).  determineTopic is abstracted as
one oracle outcome because no verified claim depends on its internals. -/
structure CreateQuizEnv where
  notesFiles : List (Except Unit String)
  grade : String
  multipleChoice : Nat
  knowledge : Nat
  thinking : Nat
  application : Nat
  communication : Nat
  subjectResponse : Except Unit String
  topicResult : Except Unit String
  quizResponse : Except Unit String
  parseQuiz : String → Option ParsedQuiz
  now : Nat

/-- Total number of requested questions (src/lib/actions.ts line 194). -/
def numQuestionsRequested (env : CreateQuizEnv) : Nat :=
  env.multipleChoice + env.knowledge + env.thinking + env.application + env.communication

/-- Per-category counts of generated questions, exactly the
questionsByCategory record computed (and only logged) at
src/lib/actions.ts lines 361-367. -/
structure Distribution where
  multipleChoice : Nat
  knowledge : Nat
  thinking : Nat
  application : Nat
  communication : Nat
deriving DecidableEq

/-- Computes questionsByCategory from a question list, mirroring the five
filters of src/lib/actions.ts lines 361-367. -/
def questionsByCategory (qs : List QuizQuestion) : Distribution where
  multipleChoice := (qs.filter (fun q => q.type = .multipleChoice)).length
  knowledge := (qs.filter (fun q => q.type = .shortAnswer ∧ q.category = .knowledge)).length
  thinking := (qs.filter (fun q => q.type = .shortAnswer ∧ q.category = .thinking)).length
  application := (qs.filter (fun q => q.type = .shortAnswer ∧ q.category = .application)).length
  communication := (qs.filter (fun q => q.type = .shortAnswer ∧ q.category = .communication)).length

/-- Runs the per-file PDF text extraction loop (src/lib/actions.ts lines
222-233), failing at the first file whose extraction throws. -/
def extractNotes : List (Except Unit String) → Except String (List String)
  | [] => .ok []
  | .error _ :: _ => .error "Failed to process a notes file. Please ensure it is a valid PDF."
  | .ok t :: rest =>
    match extractNotes rest with
    | .error e => .error e
    | .ok ts => .ok (t :: ts)

/-- Applies the LaTeX-to-symbol conversion to every textual field of a
question (src/lib/actions.ts lines 372-379). -/
def convertQuestionLatex (q : QuizQuestion) : QuizQuestion :=
  { q with
    text := convertLatexToSymbols q.text,
    options := q.options.map (fun os => os.map convertLatexToSymbols),
    answer := convertLatexToSymbols q.answer,
    explanation := q.explanation.map convertLatexToSymbols,
    rubric := q.rubric.map convertLatexToSymbols }

/-- Textual repair of the raw quiz-generation response (src/lib/actions.ts
lines 330-333): trim, then strip code fences and re-trim when any fence is
present. -/
def repairQuizText (quizText : String) : List Char :=
  let t₀ := trimL quizText.toList
  if isSubstr "```".toList t₀ then
    trimL (replaceAll "```".toList []
      (replaceAll "\n```".toList []
        (replaceAll "```json\n".toList [] t₀)))
  else t₀

/-- Structural validation of the parsed quiz (src/lib/actions.ts lines
347-354): title, subject and grade must be truthy and the questions array
non-empty.  Every failure here is reported as the single message of the
catch at lines 411-414. -/
def validateParsedQuiz (quiz : ParsedQuiz) : Except String ParsedQuiz :=
  if quiz.title = "" ∨ quiz.subject = "" ∨ quiz.grade = "" then
    .error "Failed to generate quiz. Please try again."
  else if quiz.questions.isEmpty then
    .error "Failed to generate quiz. Please try again."
  else .ok quiz

/-- Combines the repair, the JSON boundary slice, the parse oracle and the
structural validation into the response-processing block of createQuiz. -/
def parseQuizResponse (parse : String → Option ParsedQuiz) (quizText : String) :
    Except String ParsedQuiz :=
  match extractJson (repairQuizText quizText) with
  | none => .error "Failed to generate quiz. Please try again."
  | some jsonChars =>
    match parse jsonChars.asString with
    | none => .error "Failed to generate quiz. Please try again."
    | some quiz => validateParsedQuiz quiz

/-- The store-independent part of createQuiz (src/lib/actions.ts lines
173-420): validate the requested distribution total, extract the notes,
determine subject and topic, generate and parse the quiz, convert LaTeX
in every question, and assemble the stored record and history entry.  The
per-category counts are computed only for logging and are never compared
with the request. -/
def createQuizCore (env : CreateQuizEnv) :
    Except String (String × QuizData × PastQuizEntry) :=
  if numQuestionsRequested env = 0 then
    .error "Please specify the number of questions for at least one category"
  else if 50 < numQuestionsRequested env then
    .error "Total number of questions cannot exceed 50"
  else if env.notesFiles.isEmpty then
    .error "No notes files were uploaded"
  else
    match extractNotes env.notesFiles with
    | .error e => .error e
    | .ok _notesText =>
      match determineSubject env.subjectResponse with
      | .error e => .error e
      | .ok subject =>
        match env.topicResult with
        | .error _ => .error "Could not determine topic from notes"
        | .ok topic =>
          match env.quizResponse with
          | .error _ => .error "Failed to generate quiz questions. Please try again."
          | .ok quizText =>
            match parseQuizResponse env.parseQuiz quizText with
            | .error e => .error e
            | .ok quiz =>
              let _counts := questionsByCategory quiz.questions
              let questions := quiz.questions.map convertQuestionLatex
              let quizId := "quiz-" ++ toString env.now
              .ok (quizId,
                { title := quiz.title, subject := subject, grade := env.grade,
                  topic := topic, questions := questions, createdAt := env.now,
                  totalQuestions := questions.length },
                { id := quizId, title := quiz.title, subject := subject,
                  grade := env.grade, topic := topic, createdAt := env.now,
                  totalQuestions := questions.length })

/-- Embeds createQuiz (src/lib/actions.ts lines 173-420) as a state
transition on the module-level store: clearQuizStore empties both stores
first (line 179), and on success the new quiz is written into the cleared
quiz store and pushed onto the cleared history. -/
def createQuiz (env : CreateQuizEnv) (st : Store) : Except String String × Store :=
  let cleared : Store := { quizStore := [], pastQuizzesStore := [] }
  match createQuizCore env with
  | .error e => (.error e, cleared)
  | .ok (quizId, quizData, pastEntry) =>
    (.ok quizId,
     { quizStore := upsert quizId quizData cleared.quizStore,
       pastQuizzesStore := cleared.pastQuizzesStore ++ [pastEntry] })

end Actions

/-! ### Answer evaluation of src/lib/auth.ts (evaluateQuizAnswers, lines
847-954) -/

namespace Auth

/-- The record returned by the checkAnswer AI helper (src/lib/auth.ts line
1061), used as the oracle for short-answer grading. -/
structure Evaluation where
  isCorrect : Bool
  feedback : String
  score : ℚ

/-- One graded answer as stored in results.answers. -/
structure AnswerResult where
  isCorrect : Bool
  feedback : String
  score : ℚ
  userAnswer : String

/-- The aggregate block of a results object. -/
structure OverallResult where
  score : ℤ
  feedback : String
  reviewTopics : List String
  strengths : List String

/-- A results object, the QuizResults shape of src/lib/auth.ts. -/
structure QuizResults where
  id : String
  quizId : String
  answers : List (String × AnswerResult)
  overall : OverallResult
  submittedAt : Nat

/-- Grades one question, the body of the per-question loop of
evaluateQuizAnswers (src/lib/auth.ts lines 864-897).  The second
component counts the AI (checkAnswer) calls issued: missing or blank
answers and multiple-choice questions issue none.  The multiple-choice
comparison is raw string equality, with no trimming. -/
def evalQuestion (oracle : String → String → Evaluation) (q : QuizQuestion)
    (answer : Option String) : AnswerResult × Nat :=
  match answer with
  | none => (⟨false, "No answer provided", 0, ""⟩, 0)
  | some a =>
    if trimL a.toList = [] then (⟨false, "No answer provided", 0, ""⟩, 0)
    else if q.type = .multipleChoice then
      let isCorrect := a = q.answer
      (⟨isCorrect,
        if isCorrect then "Correct!" else "Incorrect. The correct answer is: " ++ q.answer,
        if isCorrect then 1 else 0, a⟩, 0)
    else
      let e := oracle q.id a
      (⟨e.isCorrect, e.feedback, e.score, a⟩, 1)

/-- The per-question loop of evaluateQuizAnswers: grades each question in
order, writing the result under the question id and accumulating the AI
call count. -/
def evalFold (oracle : String → String → Evaluation) (answers : List (String × String)) :
    List (String × AnswerResult) × Nat → List QuizQuestion → List (String × AnswerResult) × Nat
  | acc, [] => acc
  | (entries, calls), q :: t =>
    let (res, c) := evalQuestion oracle q (List.lookup q.id answers)
    evalFold oracle answers (upsert q.id res entries, calls + c) t

/-- Tier thresholds of generateOverallFeedback (src/lib/auth.ts lines
922-928). -/
def generateOverallFeedback (score : ℤ) : String :=
  if 90 ≤ score then "Excellent work! You have a strong understanding of the material."
  else if 70 ≤ score then "Good job! You have a solid grasp of most concepts."
  else if 50 ≤ score then "You have a basic understanding, but there are areas for improvement."
  else "You may want to review the material and try again."

/-- Keeps each string the first time it is seen, dropping repeats. -/
def dedupSeen (seen : List String) : List String → List String
  | [] => []
  | x :: t => if x ∈ seen then dedupSeen seen t else x :: dedupSeen (x :: seen) t

/-- Deduplication in insertion order, the spread of a JavaScript Set. -/
def dedupFirst (l : List String) : List String :=
  dedupSeen [] l

/-- Embeds identifyReviewTopics (src/lib/auth.ts lines 930-941): the
deduplicated texts of the incorrectly answered questions. -/
def identifyReviewTopics (entries : List (String × AnswerResult))
    (quiz : QuizData) : List String :=
  dedupFirst (entries.filterMap (fun e =>
    if e.2.isCorrect then none
    else (quiz.questions.find? (fun q => q.id = e.1)).map
      (fun q => if q.text = "" then "General concepts" else q.text)))

/-- Embeds identifyStrengths (src/lib/auth.ts lines 943-954): the
deduplicated texts of the correctly answered questions. -/
def identifyStrengths (entries : List (String × AnswerResult))
    (quiz : QuizData) : List String :=
  dedupFirst (entries.filterMap (fun e =>
    if e.2.isCorrect then
      (quiz.questions.find? (fun q => q.id = e.1)).map
        (fun q => if q.text = "" then "General concepts" else q.text)
    else none))

/-- Embeds evaluateQuizAnswers (src/lib/auth.ts lines 847-920): grades
every question, sums the scores, and aggregates the rounded percentage,
tiered feedback, review topics and strengths.  The second component is
the total number of AI calls issued. -/
def evaluateQuizAnswers (oracle : String → String → Evaluation) (now : Nat)
    (quizId : String) (answers : List (String × String)) (quiz : QuizData) :
    QuizResults × Nat :=
  let (entries, calls) := evalFold oracle answers ([], 0) quiz.questions
  let totalQuestions := quiz.questions.length
  let totalScore : ℚ := (entries.map (fun e => e.2.score)).sum
  let overallScore : ℤ := round ((totalScore / (totalQuestions : ℚ)) * 100)
  ({ id := "result-" ++ toString now,
     quizId := quizId,
     answers := entries,
     overall := { score := overallScore,
                  feedback := generateOverallFeedback overallScore,
                  reviewTopics := identifyReviewTopics entries quiz,
                  strengths := identifyStrengths entries quiz },
     submittedAt := now }, calls)

end Auth

/-! ### The check-answer API route (src/app/api/check-answer/route.ts, POST) -/

namespace CheckAnswerRoute

/-- The JSON body returned for one graded answer. -/
structure GradeResponse where
  score : ℚ
  correct : Bool
  feedback : String

/-- Outcome of the short-answer AI evaluation as seen by the route: the
generateText call threw, or its response failed to parse as JSON, or it
parsed into the score/correct/feedback shape. -/
inductive AIOutcome
  | genError
  | unparseable
  | parsed (score : ℚ) (correct : Bool) (feedback : String)

/-- The deterministic fallback grading of the route (src/app/api/
check-answer/route.ts lines 99-115 and 135-151): exact case-insensitive
match scores 1; otherwise any word of the normalized expected answer
longer than 3 characters occurring in the normalized student answer
scores 1/2; otherwise 0. -/
def fallbackGrade (studentAnswer correctAnswer : String) : GradeResponse :=
  let normalizedStudent := toLowerL (trimL studentAnswer.toList)
  let normalizedCorrect := toLowerL (trimL correctAnswer.toList)
  let isExactMatch := normalizedStudent = normalizedCorrect
  let containsKeywords := (splitOnSpace normalizedCorrect).any
    (fun w => decide (3 < w.length) && isSubstr w normalizedStudent)
  { score := if isExactMatch then 1 else if containsKeywords then 1/2 else 0,
    correct := isExactMatch,
    feedback :=
      if isExactMatch then "Correct! Well done!"
      else if containsKeywords then
        "Partially correct. Your answer contains some key elements but could be more complete."
      else "Incorrect. Please review the material and try again." }

/-- A response of the POST handler: an error status or a graded answer. -/
inductive RouteResponse
  | jsonError (status : Nat) (message : String)
  | graded (g : GradeResponse)

/-- Embeds the POST handler of src/app/api/check-answer/route.ts (lines
33-159): reject requests with a missing field, grade multiple choice by
trimmed exact equality with no AI call, and grade short answers by the AI
outcome with the deterministic fallback on a thrown call, an unparseable
response, or a response with a falsy feedback field. -/
def checkAnswerPOST (ai : AIOutcome) (questionId questionText studentAnswer
    correctAnswer questionType : String) : RouteResponse :=
  if questionId = "" ∨ studentAnswer = "" ∨ correctAnswer = "" ∨ questionType = "" ∨
      questionText = "" then
    .jsonError 400 "Missing required fields"
  else if questionType = "multipleChoice" then
    let isCorrect := trimL studentAnswer.toList = trimL correctAnswer.toList
    .graded { score := if isCorrect then 1 else 0,
              correct := isCorrect,
              feedback := if isCorrect then "Correct! Well done!"
                          else "Incorrect. Please review the options and try again." }
  else
    match ai with
    | .genError => .graded (fallbackGrade studentAnswer correctAnswer)
    | .unparseable => .graded (fallbackGrade studentAnswer correctAnswer)
    | .parsed score correct feedback =>
      if feedback = "" then .graded (fallbackGrade studentAnswer correctAnswer)
      else .graded { score := score, correct := correct, feedback := feedback }

end CheckAnswerRoute

/-! ### Concrete instances used by witnesses and counterexamples -/

/-- A well-formed multiple-choice question used by the C1 scenario. -/
def c1Question : QuizQuestion :=
  { id := "1", text := "What is 2 + 2?", type := .multipleChoice,
    category := .multipleChoice,
    options := some ["A) 3", "B) 4", "C) 5", "D) 6"], answer := "B) 4",
    explanation := some "2 + 2 = 4", rubric := none }

/-- A parsed model response containing only one question. -/
def c1Parsed : Actions.ParsedQuiz :=
  { title := "Grade 11 Algebra Quiz", subject := "Mathematics", grade := "11",
    topic := "Algebra", questions := [c1Question] }

/-- A createQuiz environment requesting 2 multiple-choice questions whose
generation oracle produces a quiz of only 1 question. -/
def c1Env : Actions.CreateQuizEnv :=
  { notesFiles := [.ok "Notes on solving linear equations in algebra"],
    grade := "11",
    multipleChoice := 2, knowledge := 0, thinking := 0, application := 0,
    communication := 0,
    subjectResponse := .ok "Mathematics", topicResult := .ok "Algebra",
    quizResponse := .ok "\x7b \"questions\": 1 \x7d",
    parseQuiz := fun _ => some c1Parsed,
    now := 0 }

/-- The question of c1Parsed after LaTeX conversion (it contains no LaTeX
command, so conversion leaves it unchanged). -/
def c1Stored : QuizData :=
  { title := "Grade 11 Algebra Quiz", subject := "Mathematics", grade := "11",
    topic := "Algebra", questions := [Actions.convertQuestionLatex c1Question],
    createdAt := 0, totalQuestions := 1 }

/-- A stale history entry present before the C10 createQuiz call. -/
def c10StaleEntry : Actions.PastQuizEntry :=
  { id := "quiz-old", title := "Old", subject := "Mathematics",
    grade := "11", topic := "Algebra", createdAt := 0, totalQuestions := 1 }

/-- A non-trivial starting store for the C10 scenario, holding one stale
quiz and one stale history entry that a createQuiz call must erase. -/
def c10Store : Actions.Store :=
  { quizStore := [("quiz-old", c1Stored)],
    pastQuizzesStore := [c10StaleEntry] }

/-- A createQuiz environment for the C10 witness. -/
def c10Env : Actions.CreateQuizEnv :=
  { c1Env with now := 7 }

/-- A multiple-choice question with four identical options and an answer
outside the option list, for the C4 counterexample. -/
def c4Question : OpenRouterApi.ORQuestion :=
  { id := some "1", type := .multipleChoice, text := "Pick one",
    options := some ["A) x", "A) x", "A) x", "A) x"], answer := "B) y",
    explanation := none }

/-- The quiz carrying c4Question. -/
def c4Quiz : OpenRouterApi.ORQuiz :=
  { title := "Quiz", subject := "Mathematics", grade := "11",
    topic := "Algebra", questions := [c4Question] }

/-- The cleaned form of c4Question: the degenerate options are accepted
verbatim with an empty explanation spliced in. -/
def c4CleanedQuestion : OpenRouterApi.ORQuestion :=
  { id := some "1", type := .multipleChoice, text := "Pick one",
    options := some ["A) x", "A) x", "A) x", "A) x"], answer := "B) y",
    explanation := some "" }

/-- What the cleanup path produces from c4Quiz. -/
def c4Accepted : OpenRouterApi.ORQuiz :=
  { title := "Quiz", subject := "Mathematics", grade := "11",
    topic := "Algebra", questions := [c4CleanedQuestion] }

/-- A well-formed multiple-choice question for the C4 witness. -/
def c4GoodQuestion : OpenRouterApi.ORQuestion :=
  { id := some "1", type := .multipleChoice, text := "What is 2 + 2?",
    options := some ["A) 3", "B) 4", "C) 5", "D) 6"], answer := "B) 4",
    explanation := some "Arithmetic" }

/-- The quiz carrying c4GoodQuestion. -/
def c4GoodQuiz : OpenRouterApi.ORQuiz :=
  { title := "Quiz", subject := "Mathematics", grade := "11",
    topic := "Algebra", questions := [c4GoodQuestion] }

/-- The cleaned form of the single question of c4GoodQuiz. -/
def c4GoodCleanQ : OpenRouterApi.ORQuestion :=
  { id := some "1", type := .multipleChoice, text := "What is 2 + 2?",
    options := some ["A) 3", "B) 4", "C) 5", "D) 6"], answer := "B) 4",
    explanation := some "Arithmetic" }

/-- The accepted form of c4GoodQuiz on the cleanup path. -/
def c4GoodAccepted : OpenRouterApi.ORQuiz :=
  { title := "Quiz", subject := "Mathematics", grade := "11",
    topic := "Algebra", questions := [c4GoodCleanQ] }

/-- An oracle whose behaviour must be irrelevant wherever the claims assert
that no AI call is issued. -/
def c5Oracle : String → String → Auth.Evaluation :=
  fun _ _ => ⟨true, "should never be consulted", 1⟩

/-- A short-answer question for the C5 witness. -/
def c5Question : QuizQuestion :=
  { id := "4", text := "Explain photosynthesis", type := .shortAnswer,
    category := .knowledge, options := none, answer := "Plants convert light",
    explanation := none, rubric := none }

/-- An oracle for the C6 scenarios, distinct from the C5 one. -/
def c6Oracle : String → String → Auth.Evaluation :=
  fun _ _ => ⟨false, "never used for multiple choice", 0⟩

/-- The multiple-choice question of the C6 counterexample. -/
def c6Question : QuizQuestion :=
  { id := "1", text := "Pick the first option", type := .multipleChoice,
    category := .multipleChoice,
    options := some ["A) First option", "B) Second option", "C) Third option", "D) Fourth option"],
    answer := "A) First option", explanation := none, rubric := none }

/-- The quiz of the C6 counterexample. -/
def c6Quiz : QuizData :=
  { title := "Quiz", subject := "Mathematics", grade := "11",
    topic := "Algebra", questions := [c6Question], createdAt := 0,
    totalQuestions := 1 }

/-- A submission whose answer matches the stored answer up to a leading
space. -/
def c6Answers : List (String × String) :=
  [("1", " A) First option")]

/-- The four-question quiz of the C7 witness: three multiple-choice
questions and one AI-graded short answer. -/
def c7Quiz : QuizData :=
  { title := "Quiz", subject := "Physics", grade := "11", topic := "Motion",
    questions :=
      [{ id := "1", text := "Q1", type := .multipleChoice,
         category := .multipleChoice, options := some ["A", "B", "C", "D"],
         answer := "A", explanation := none, rubric := none },
       { id := "2", text := "Q2", type := .multipleChoice,
         category := .multipleChoice, options := some ["A", "B", "C", "D"],
         answer := "B", explanation := none, rubric := none },
       { id := "3", text := "Q3", type := .multipleChoice,
         category := .multipleChoice, options := some ["A", "B", "C", "D"],
         answer := "C", explanation := none, rubric := none },
       { id := "4", text := "Q4", type := .shortAnswer, category := .knowledge,
         options := none, answer := "acceleration", explanation := none,
         rubric := none }],
    createdAt := 0, totalQuestions := 4 }

/-- Submitted answers scoring 1, 1, 0 and (by the oracle) 1/2. -/
def c7Answers : List (String × String) :=
  [("1", "A"), ("2", "B"), ("3", "D"), ("4", "speed")]

/-- The AI grading oracle of the C7 witness, awarding half credit. -/
def c7Oracle : String → String → Auth.Evaluation :=
  fun _ _ => ⟨false, "partially correct", 1/2⟩

/-! ### General lemmas about substring occurrence and the replacement
scanner -/

theorem toList_asString (l : List Char) : (List.asString l).toList = l := rfl

theorem occ_nil {q : List Char} : OccursIn q [] ↔ q = [] := by
  constructor
  · rintro ⟨u, v, h⟩
    rcases List.append_eq_nil.mp h.symm with ⟨h₁, -⟩
    exact (List.append_eq_nil.mp h₁).2
  · rintro rfl
    exact ⟨[], [], rfl⟩

theorem occ_cons {q : List Char} {c : Char} {t : List Char} :
    OccursIn q (c :: t) ↔ q <+: (c :: t) ∨ OccursIn q t := by
  constructor
  · rintro ⟨u, v, h⟩
    cases u with
    | nil => exact Or.inl ⟨v, by simpa using h.symm⟩
    | cons u₀ u' =>
      rw [List.cons_append, List.cons_append] at h
      injection h with h₁ h₂
      exact Or.inr ⟨u', v, by simpa using h₂⟩
  · rintro (⟨w, hw⟩ | ⟨u, v, h⟩)
    · exact ⟨[], w, by simpa using hw.symm⟩
    · exact ⟨c :: u, v, by simp [h]⟩

theorem occ_of_pfx {q s : List Char} (h : q <+: s) : OccursIn q s := by
  obtain ⟨w, hw⟩ := h
  exact ⟨[], w, by simpa using hw.symm⟩

theorem occ_drop {q s : List Char} (n : Nat) (h : OccursIn q (List.drop n s)) :
    OccursIn q s := by
  obtain ⟨u, v, huv⟩ := h
  refine ⟨List.take n s ++ u, v, ?_⟩
  conv_lhs => rw [← List.take_append_drop n s]
  rw [huv]
  simp

theorem pfx_replaceAllF {p r : List Char} (hr : r ≠ []) :
    ∀ fuel s q, s.length ≤ fuel → (∀ a ∈ r, a ∉ q) →
      q <+: replaceAllF p r fuel s → q <+: s := by
  intro fuel
  induction fuel with
  | zero =>
    intro s q hlen hdisj hpre
    have hs : s = [] := List.length_eq_zero.mp (Nat.le_zero.mp hlen)
    subst hs
    simpa [replaceAllF] using hpre
  | succ fuel ih =>
    intro s q hlen hdisj hpre
    cases s with
    | nil => simpa [replaceAllF] using hpre
    | cons c cs =>
      rw [replaceAllF] at hpre
      split at hpre
      · -- the pattern matched: the output starts with the replacement
        cases q with
        | nil => exact ⟨c :: cs, rfl⟩
        | cons q₀ q' =>
          cases r with
          | nil => exact absurd rfl hr
          | cons r₀ r' =>
            rw [List.cons_append] at hpre
            have h₀ := (List.cons_prefix_cons.mp hpre).1
            apply absurd (hdisj r₀ (List.mem_cons_self r₀ r'))
            intro hnot
            rw [← h₀] at hnot
            exact hnot (List.mem_cons_self q₀ q')
      · -- no match: the head character is kept
        cases q with
        | nil => exact ⟨c :: cs, rfl⟩
        | cons q₀ q' =>
          obtain ⟨hq₀, hq'⟩ := List.cons_prefix_cons.mp hpre
          have hq's : q' <+: cs := by
            refine ih cs q' (Nat.le_of_succ_le_succ (by simpa using hlen)) ?_ hq'
            exact fun a ha hin => hdisj a ha (List.mem_cons_of_mem _ hin)
          exact List.cons_prefix_cons.mpr ⟨hq₀, hq's⟩

theorem occ_append_disjoint {q : List Char} (hq : q ≠ []) :
    ∀ rl Y, (∀ a ∈ rl, a ∉ q) → OccursIn q (rl ++ Y) → OccursIn q Y := by
  intro rl
  induction rl with
  | nil =>
    intro Y _ h
    simpa using h
  | cons a rl ih =>
    intro Y hdisj h
    rw [List.cons_append] at h
    rcases occ_cons.mp h with hpre | htail
    · cases q with
      | nil => exact absurd rfl hq
      | cons q₀ q' =>
        have h₀ := (List.cons_prefix_cons.mp hpre).1
        apply absurd (hdisj a (List.mem_cons_self a rl))
        intro hnot
        rw [← h₀] at hnot
        exact hnot (List.mem_cons_self q₀ q')
    · exact ih Y (fun b hb => hdisj b (List.mem_cons_of_mem a hb)) htail

theorem drop_len_le {p : List Char} (hp : p ≠ []) (c : Char) (cs : List Char)
    {fuel : Nat} (hlen : (c :: cs).length ≤ fuel + 1) :
    (List.drop p.length (c :: cs)).length ≤ fuel := by
  have h₁ : 1 ≤ p.length := List.length_pos.mpr hp
  rw [List.length_drop]
  simp only [List.length_cons] at hlen ⊢
  omega

theorem no_occ_replaceAllF {p r : List Char} (hp : p ≠ []) (hr : r ≠ [])
    (hdisj : ∀ a ∈ r, a ∉ p) :
    ∀ fuel s, s.length ≤ fuel → ¬ OccursIn p (replaceAllF p r fuel s) := by
  intro fuel
  induction fuel with
  | zero =>
    intro s hlen hocc
    have hs : s = [] := List.length_eq_zero.mp (Nat.le_zero.mp hlen)
    subst hs
    rw [replaceAllF] at hocc
    exact hp (occ_nil.mp hocc)
  | succ fuel ih =>
    intro s hlen hocc
    cases s with
    | nil =>
      rw [replaceAllF] at hocc
      exact hp (occ_nil.mp hocc)
    | cons c cs =>
      rw [replaceAllF] at hocc
      split at hocc
      case isTrue hcond =>
        have hrec := occ_append_disjoint hp r _ hdisj hocc
        exact ih (List.drop p.length (c :: cs)) (drop_len_le hp c cs hlen) hrec
      case isFalse hcond =>
        rcases occ_cons.mp hocc with hpre | htail
        · cases p with
          | nil => exact absurd rfl hp
          | cons p₀ p' =>
            obtain ⟨hp₀, hp'⟩ := List.cons_prefix_cons.mp hpre
            have hp's : p' <+: cs := by
              refine pfx_replaceAllF hr fuel cs p' (Nat.le_of_succ_le_succ (by simpa using hlen)) ?_ hp'
              exact fun a ha hin => hdisj a ha (List.mem_cons_of_mem _ hin)
            have : (p₀ :: p') <+: (c :: cs) := List.cons_prefix_cons.mpr ⟨hp₀, hp's⟩
            exact hcond ⟨hp, ( List.isPrefixOf_iff_prefix).mpr this⟩
        · exact ih cs (Nat.le_of_succ_le_succ (by simpa using hlen)) htail

theorem no_occ_preserved {p r q : List Char} (hq : q ≠ []) (hr : r ≠ [])
    (hdisj : ∀ a ∈ r, a ∉ q) :
    ∀ fuel s, s.length ≤ fuel → ¬ OccursIn q s →
      ¬ OccursIn q (replaceAllF p r fuel s) := by
  intro fuel
  induction fuel with
  | zero =>
    intro s hlen hs hocc
    have h₀ : s = [] := List.length_eq_zero.mp (Nat.le_zero.mp hlen)
    subst h₀
    rw [replaceAllF] at hocc
    exact hq (occ_nil.mp hocc)
  | succ fuel ih =>
    intro s hlen hs hocc
    cases s with
    | nil =>
      rw [replaceAllF] at hocc
      exact hq (occ_nil.mp hocc)
    | cons c cs =>
      rw [replaceAllF] at hocc
      split at hocc
      case isTrue hcond =>
        have hrec := occ_append_disjoint hq r _ hdisj hocc
        refine ih (List.drop p.length (c :: cs)) (drop_len_le hcond.1 c cs hlen) ?_ hrec
        exact fun h => hs (occ_drop p.length h)
      case isFalse hcond =>
        rcases occ_cons.mp hocc with hpre | htail
        · cases q with
          | nil => exact absurd rfl hq
          | cons q₀ q' =>
            obtain ⟨hq₀, hq'⟩ := List.cons_prefix_cons.mp hpre
            have hq's : q' <+: cs := by
              refine pfx_replaceAllF hr fuel cs q' (Nat.le_of_succ_le_succ (by simpa using hlen)) ?_ hq'
              exact fun a ha hin => hdisj a ha (List.mem_cons_of_mem _ hin)
            exact hs (occ_of_pfx (List.cons_prefix_cons.mpr ⟨hq₀, hq's⟩))
        · refine ih cs (Nat.le_of_succ_le_succ (by simpa using hlen)) ?_ htail
          exact fun h => hs (occ_cons.mpr (Or.inr h))

theorem replaceAllF_id {p r : List Char} :
    ∀ fuel s, s.length ≤ fuel → ¬ OccursIn p s → replaceAllF p r fuel s = s := by
  intro fuel
  induction fuel with
  | zero =>
    intro s hlen hs
    have h₀ : s = [] := List.length_eq_zero.mp (Nat.le_zero.mp hlen)
    subst h₀
    rw [replaceAllF]
  | succ fuel ih =>
    intro s hlen hs
    cases s with
    | nil => rw [replaceAllF]
    | cons c cs =>
      rw [replaceAllF]
      split
      case isTrue hcond =>
        exact absurd (occ_of_pfx (( List.isPrefixOf_iff_prefix).mp hcond.2)) hs
      case isFalse hcond =>
        rw [ih cs (Nat.le_of_succ_le_succ (by simpa using hlen))
          (fun h => hs (occ_cons.mpr (Or.inr h)))]

theorem no_occ_applyReplacements_other {q : List Char} (hq : q ≠ []) :
    ∀ t s, (∀ pr ∈ t, pr.2 ≠ [] ∧ ∀ a ∈ pr.2, a ∉ q) →
      ¬ OccursIn q s → ¬ OccursIn q (applyReplacements t s) := by
  intro t
  induction t with
  | nil =>
    intro s _ h
    simpa [applyReplacements] using h
  | cons pr t ih =>
    intro s hcond hs
    rw [applyReplacements]
    apply ih _ (fun pr₁ h₁ => hcond pr₁ (List.mem_cons_of_mem _ h₁))
    obtain ⟨hr₂, hd⟩ := hcond pr (List.mem_cons_self _ _)
    exact no_occ_preserved hq hr₂ hd s.length s (le_refl _) hs

theorem no_occ_applyReplacements_self :
    ∀ t s pr₀, pr₀ ∈ t →
      (∀ pr ∈ t, pr.1 ≠ [] ∧ pr.2 ≠ []) →
      (∀ pr ∈ t, ∀ pr₁ ∈ t, ∀ a ∈ pr.2, a ∉ pr₁.1) →
      ¬ OccursIn pr₀.1 (applyReplacements t s) := by
  intro t
  induction t with
  | nil =>
    intro s pr₀ h
    exact absurd h (List.not_mem_nil _)
  | cons pr t ih =>
    intro s pr₀ hmem hne hdisj
    rw [applyReplacements]
    rcases List.mem_cons.mp hmem with heq | htail
    · subst heq
      have h₁ : ¬ OccursIn pr₀.1 (replaceAll pr₀.1 pr₀.2 s) := by
        obtain ⟨hp₁, hp₂⟩ := hne pr₀ (List.mem_cons_self _ _)
        exact no_occ_replaceAllF hp₁ hp₂
          (hdisj pr₀ (List.mem_cons_self _ _) pr₀ (List.mem_cons_self _ _))
          s.length s (le_refl _)
      apply no_occ_applyReplacements_other (hne pr₀ (List.mem_cons_self _ _)).1 t _ ?_ h₁
      intro pr₁ h₁'
      exact ⟨(hne pr₁ (List.mem_cons_of_mem _ h₁')).2,
        hdisj pr₁ (List.mem_cons_of_mem _ h₁') pr₀ (List.mem_cons_self _ _)⟩
    · refine ih (replaceAll pr.1 pr.2 s) pr₀ htail ?_ ?_
      · exact fun pr₁ h₁ => hne pr₁ (List.mem_cons_of_mem _ h₁)
      · exact fun pr₁ h₁ pr₂ h₂ => hdisj pr₁ (List.mem_cons_of_mem _ h₁) pr₂ (List.mem_cons_of_mem _ h₂)

theorem applyReplacements_id :
    ∀ t s, (∀ pr ∈ t, ¬ OccursIn pr.1 s) → applyReplacements t s = s := by
  intro t
  induction t with
  | nil =>
    intro s _
    rw [applyReplacements]
  | cons pr t ih =>
    intro s hocc
    rw [applyReplacements, show replaceAll pr.1 pr.2 s = s from
      replaceAllF_id s.length s (le_refl _) (hocc pr (List.mem_cons_self _ _))]
    exact ih s (fun pr₁ h₁ => hocc pr₁ (List.mem_cons_of_mem _ h₁))

theorem convertLatex_idem_list (s : List Char) :
    applyReplacements latexReplacements (applyReplacements latexReplacements s) =
      applyReplacements latexReplacements s := by
  apply applyReplacements_id
  intro pr hpr
  exact no_occ_applyReplacements_self latexReplacements s pr hpr (by decide) (by decide)

/-! ### Claim C9 -/

/-- C9: the text normalizer convertLatexToSymbols is a total pure function
(defined on every string, it never fails) and idempotent: normalizing an
already normalized string is a no-op. -/
theorem convertLatexToSymbols_idempotent (x : String) :
    convertLatexToSymbols (convertLatexToSymbols x) = convertLatexToSymbols x := by
  unfold convertLatexToSymbols
  rw [toList_asString]
  exact congrArg List.asString (convertLatex_idem_list x.toList)

/-! ### Claim C3 -/

/-- C3 counterexample: a model output outside the closed subject
enumeration, such as General Studies, is returned verbatim by
determineSubject instead of failing with a classification error. -/
theorem determineSubject_accepts_general_studies :
    Actions.determineSubject (.ok "General Studies") = .ok "General Studies" ∧
    "General Studies" ∉ Actions.subjectEnumeration := by
  exact ⟨rfl, by decide⟩

/-- C3 amended: determineSubject only deletes apostrophes, double quotes,
periods and commas and trims the model output; it succeeds exactly when
the cleaned output is non-empty, returning it verbatim, with no
comparison against the subject enumeration. -/
theorem determineSubject_returns_cleaned (r s : String) :
    Actions.determineSubject (.ok r) = .ok s ↔
      s = Actions.cleanSubjectResponse r ∧ s ≠ "" := by
  constructor
  · intro hok
    by_cases h : Actions.cleanSubjectResponse r = ""
    · simp [Actions.determineSubject, h] at hok
    · simp [Actions.determineSubject, h] at hok
      exact ⟨hok.symm, hok ▸ h⟩
  · rintro ⟨rfl, hs⟩
    simp [Actions.determineSubject, hs]

/-- C3 witness: the amended theorem applied to a concrete quoted response
with trailing punctuation. -/
theorem determineSubject_returns_cleaned_witness :
    Actions.determineSubject (.ok " Physics. ") = .ok "Physics" :=
  (determineSubject_returns_cleaned " Physics. " "Physics").mpr ⟨by decide, by decide⟩

/-- Equation lemma: createQuiz on a failing core run. -/
theorem createQuiz_eq_error (env : Actions.CreateQuizEnv) (st : Actions.Store)
    (e : String) (h : Actions.createQuizCore env = .error e) :
    Actions.createQuiz env st = (.error e, { quizStore := [], pastQuizzesStore := [] }) := by
  unfold Actions.createQuiz
  rw [h]

/-- Equation lemma: createQuiz on a successful core run. -/
theorem createQuiz_eq_ok (env : Actions.CreateQuizEnv) (st : Actions.Store)
    (qid : String) (qd : QuizData) (pe : Actions.PastQuizEntry)
    (h : Actions.createQuizCore env = .ok (qid, qd, pe)) :
    Actions.createQuiz env st =
      (.ok qid, { quizStore := [(qid, qd)], pastQuizzesStore := [pe] }) := by
  unfold Actions.createQuiz
  rw [h]
  rfl

/-! ### Claim C10 -/

/-- C10: createQuiz erases the module-level quiz store and past-quizzes
history before doing anything else, so its outcome is the same from any
starting store, and after a successful call the store holds exactly the
one new quiz and the history exactly its one entry. -/
theorem createQuiz_clears_store (env : Actions.CreateQuizEnv) (st : Actions.Store) :
    Actions.createQuiz env st = Actions.createQuiz env ⟨[], []⟩ ∧
    (∀ qid, (Actions.createQuiz env st).1 = .ok qid →
      ∃ qd pe, (Actions.createQuiz env st).2 =
        { quizStore := [(qid, qd)], pastQuizzesStore := [pe] }) := by
  refine ⟨rfl, ?_⟩
  intro qid h
  cases hcore : Actions.createQuizCore env with
  | error e =>
    rw [createQuiz_eq_error env st e hcore] at h
    exact absurd h (by simp)
  | ok triple =>
    obtain ⟨qid₁, qd, pe⟩ := triple
    rw [createQuiz_eq_ok env st qid₁ qd pe hcore] at h
    have hq : qid₁ = qid := by simpa using h
    exact ⟨qd, pe, by rw [createQuiz_eq_ok env st qid₁ qd pe hcore, hq]⟩

/-- C10 witness: the theorem applied to a concrete environment and a
non-empty starting store whose stale quiz and history entry are gone
afterwards. -/
theorem createQuiz_clears_store_witness :
    ∃ qd pe, (Actions.createQuiz c10Env c10Store).2 =
      { quizStore := [("quiz-" ++ toString (7 : Nat), qd)], pastQuizzesStore := [pe] } :=
  (createQuiz_clears_store c10Env c10Store).2 ("quiz-" ++ toString (7 : Nat)) rfl

/-! ### Claim C1 -/

/-- C1 counterexample: a request for 2 multiple-choice questions (total 2,
within 1..50) whose generation oracle returns a structurally valid quiz of
only 1 question: createQuiz succeeds and stores the 1-question quiz,
instead of failing on the distribution mismatch. -/
theorem createQuiz_accepts_wrong_distribution :
    Actions.numQuestionsRequested c1Env = 2 ∧
    (Actions.createQuiz c1Env ⟨[], []⟩).1 = .ok ("quiz-" ++ toString (0 : Nat)) ∧
    ((Actions.createQuiz c1Env ⟨[], []⟩).2.quizStore.map
      (fun e => e.2.questions.length)) = [1] ∧
    (1 : Nat) ≠ 2 := by
  exact ⟨rfl, rfl, rfl, by decide⟩

/-- Helper describing what the structural validation of the parsed quiz
guarantees on success. -/
theorem validateParsedQuiz_ok (q₁ q₂ : Actions.ParsedQuiz)
    (h : Actions.validateParsedQuiz q₁ = .ok q₂) :
    q₂ = q₁ ∧ q₁.title ≠ "" ∧ q₁.subject ≠ "" ∧ q₁.grade ≠ "" ∧
      q₁.questions ≠ [] := by
  unfold Actions.validateParsedQuiz at h
  by_cases h₁ : q₁.title = "" ∨ q₁.subject = "" ∨ q₁.grade = ""
  · rw [if_pos h₁] at h
    exact absurd h (by simp)
  · rw [if_neg h₁] at h
    by_cases h₂ : q₁.questions.isEmpty
    · rw [if_pos h₂] at h
      exact absurd h (by simp)
    · rw [if_neg h₂] at h
      push_neg at h₁
      simp only [Except.ok.injEq] at h
      refine ⟨h.symm, h₁.1, h₁.2.1, h₁.2.2, ?_⟩
      intro hnil
      exact h₂ ( List.isEmpty_iff.mpr hnil)

/-- Helper describing what a successful parseQuizResponse guarantees. -/
theorem parseQuizResponse_ok (parse : String → Option Actions.ParsedQuiz)
    (qt : String) (quiz : Actions.ParsedQuiz)
    (h : Actions.parseQuizResponse parse qt = .ok quiz) :
    quiz.title ≠ "" ∧ quiz.subject ≠ "" ∧ quiz.grade ≠ "" ∧
      quiz.questions ≠ [] := by
  unfold Actions.parseQuizResponse at h
  split at h
  · exact absurd h (by simp)
  · split at h
    · exact absurd h (by simp)
    · obtain ⟨rfl, h₁, h₂, h₃, h₄⟩ := validateParsedQuiz_ok _ _ h
      exact ⟨h₁, h₂, h₃, h₄⟩

/-- Helper describing what a successful createQuizCore guarantees. -/
theorem createQuizCore_ok (env : Actions.CreateQuizEnv)
    (qid : String) (qd : QuizData) (pe : Actions.PastQuizEntry)
    (h : Actions.createQuizCore env = .ok (qid, qd, pe)) :
    1 ≤ Actions.numQuestionsRequested env ∧
    Actions.numQuestionsRequested env ≤ 50 ∧ qd.questions ≠ [] := by
  by_cases hz : Actions.numQuestionsRequested env = 0
  · rw [Actions.createQuizCore, if_pos hz] at h
    exact absurd h (by simp)
  by_cases hgt : 50 < Actions.numQuestionsRequested env
  · rw [Actions.createQuizCore, if_neg hz, if_pos hgt] at h
    exact absurd h (by simp)
  by_cases hnf : env.notesFiles.isEmpty
  · rw [Actions.createQuizCore, if_neg hz, if_neg hgt, if_pos hnf] at h
    exact absurd h (by simp)
  rw [Actions.createQuizCore, if_neg hz, if_neg hgt, if_neg hnf] at h
  refine ⟨Nat.one_le_iff_ne_zero.mpr hz, Nat.le_of_not_lt hgt, ?_⟩
  cases hn : Actions.extractNotes env.notesFiles with
  | error e => rw [hn] at h; simp at h
  | ok notes =>
    rw [hn] at h
    dsimp only at h
    cases hs : Actions.determineSubject env.subjectResponse with
    | error e => rw [hs] at h; simp at h
    | ok subject =>
      rw [hs] at h
      dsimp only at h
      cases ht : env.topicResult with
      | error u => rw [ht] at h; simp at h
      | ok topic =>
        rw [ht] at h
        dsimp only at h
        cases hq : env.quizResponse with
        | error u => rw [hq] at h; simp at h
        | ok quizText =>
          rw [hq] at h
          dsimp only at h
          cases hp : Actions.parseQuizResponse env.parseQuiz quizText with
          | error e => rw [hp] at h; simp at h
          | ok quiz =>
            rw [hp] at h
            simp only [Except.ok.injEq, Prod.mk.injEq] at h
            obtain ⟨-, hqd, -⟩ := h
            subst hqd
            have hq₄ := (parseQuizResponse_ok _ _ _ hp).2.2.2
            simpa using hq₄

/-- C1 amended: a successful createQuiz guarantees only that the requested
total lies in 1..50 and that the stored quiz has a non-empty question
list; the per-category counts are computed for logging only and are never
compared against the request, so a successful quiz may differ from the
requested distribution. -/
theorem createQuiz_success_bounds (env : Actions.CreateQuizEnv)
    (st : Actions.Store) (qid : String)
    (h : (Actions.createQuiz env st).1 = .ok qid) :
    1 ≤ Actions.numQuestionsRequested env ∧
    Actions.numQuestionsRequested env ≤ 50 ∧
    ∃ qd, (Actions.createQuiz env st).2.quizStore = [(qid, qd)] ∧
      qd.questions ≠ [] := by
  cases hcore : Actions.createQuizCore env with
  | error e =>
    rw [createQuiz_eq_error env st e hcore] at h
    exact absurd h (by simp)
  | ok triple =>
    obtain ⟨qid₁, qd, pe⟩ := triple
    rw [createQuiz_eq_ok env st qid₁ qd pe hcore] at h
    have hq : qid₁ = qid := by simpa using h
    obtain ⟨h₁, h₂, h₃⟩ := createQuizCore_ok env qid₁ qd pe hcore
    refine ⟨h₁, h₂, qd, ?_, h₃⟩
    rw [createQuiz_eq_ok env st qid₁ qd pe hcore, hq]

/-- C1 witness: the amended theorem applied to the concrete environment of
the counterexample. -/
theorem createQuiz_success_bounds_witness :
    1 ≤ Actions.numQuestionsRequested c1Env ∧
    Actions.numQuestionsRequested c1Env ≤ 50 ∧
    ∃ qd, (Actions.createQuiz c1Env ⟨[], []⟩).2.quizStore =
      [("quiz-" ++ toString (0 : Nat), qd)] ∧ qd.questions ≠ [] :=
  createQuiz_success_bounds c1Env ⟨[], []⟩ ("quiz-" ++ toString (0 : Nat)) rfl

/-! ### Claim C4 -/

/-- C4 counterexample: the cleanup path of the quiz response processing
accepts a multiple-choice question whose four options are all identical
and whose answer is not among them; only the option count is checked. -/
theorem processQuizResponse_accepts_degenerate_options :
    OpenRouterApi.processQuizResponse (.cleanupParsed c4Quiz) = .ok c4Accepted ∧
    (c4Accepted.questions.map (fun q => q.options)) =
      [some ["A) x", "A) x", "A) x", "A) x"]] ∧
    ¬ (["A) x", "A) x", "A) x", "A) x"] : List String).Nodup ∧
    "B) y" ∉ (["A) x", "A) x", "A) x", "A) x"] : List String) ∧
    (c4Accepted.questions.map (fun q => q.answer)) = ["B) y"] := by
  exact ⟨rfl, rfl, by decide, by decide, rfl⟩

/-- Helper describing what cleanQuestion guarantees on success. -/
theorem cleanQuestion_ok (i : Nat) (q c : OpenRouterApi.ORQuestion)
    (h : OpenRouterApi.cleanQuestion i q = .ok c) :
    c.type = q.type ∧
    (c.type = .multipleChoice → ∃ opts, c.options = some opts ∧ opts.length = 4) := by
  unfold OpenRouterApi.cleanQuestion at h
  split at h
  · exact absurd h (by simp)
  · rename_i hcond
    push_neg at hcond
    obtain ⟨htext, hmc⟩ := hcond
    simp only [Except.ok.injEq] at h
    subst h
    refine ⟨rfl, ?_⟩
    intro htype
    simp only at htype
    rw [if_pos htype]
    refine ⟨_, rfl, ?_⟩
    obtain ⟨hsome, hlen⟩ := hmc htype
    rw [List.length_map]
    exact hlen

/-- Helper lifting cleanQuestion_ok over the question list. -/
theorem cleanQuestions_ok :
    ∀ (qs cs : List OpenRouterApi.ORQuestion) (i : Nat),
      OpenRouterApi.cleanQuestions i qs = .ok cs →
      ∀ c ∈ cs, c.type = .multipleChoice →
        ∃ opts, c.options = some opts ∧ opts.length = 4 := by
  intro qs
  induction qs with
  | nil =>
    intro cs i h c hc
    unfold OpenRouterApi.cleanQuestions at h
    simp only [Except.ok.injEq] at h
    subst h
    exact absurd hc (List.not_mem_nil c)
  | cons q t ih =>
    intro cs i h c hc hmc
    unfold OpenRouterApi.cleanQuestions at h
    cases h₁ : OpenRouterApi.cleanQuestion i q with
    | error e => rw [h₁] at h; simp at h
    | ok c₁ =>
      rw [h₁] at h
      dsimp only at h
      cases h₂ : OpenRouterApi.cleanQuestions (i + 1) t with
      | error e => rw [h₂] at h; simp at h
      | ok rest =>
        rw [h₂] at h
        simp only [Except.ok.injEq] at h
        subst h
        rcases List.mem_cons.mp hc with rfl | hmem
        · exact (cleanQuestion_ok i q c h₁).2 hmc
        · exact ih rest (i + 1) h₂ c hmem hmc

/-- C4 amended: on the cleanup path every accepted multiple-choice
question carries exactly 4 options (the count is validated), but neither
pairwise distinctness of the options nor membership of the answer is
checked there, and the direct-parse fast path performs no per-question
validation at all. -/
theorem cleanup_enforces_four_options (quiz out : OpenRouterApi.ORQuiz)
    (h : OpenRouterApi.processQuizResponse (.cleanupParsed quiz) = .ok out) :
    ∀ q ∈ out.questions, q.type = .multipleChoice →
      ∃ opts, q.options = some opts ∧ opts.length = 4 := by
  intro q hq hmc
  simp only [OpenRouterApi.processQuizResponse] at h
  by_cases hempty : quiz.questions.isEmpty
  · rw [if_pos hempty] at h
    exact absurd h (by simp)
  · rw [if_neg hempty] at h
    cases hc : OpenRouterApi.cleanQuestions 0 quiz.questions with
    | error e => rw [hc] at h; simp at h
    | ok cleaned =>
      rw [hc] at h
      simp only [Except.ok.injEq] at h
      subst h
      exact cleanQuestions_ok quiz.questions cleaned 0 hc q (by simpa using hq) hmc

/-- C4 witness: the amended theorem applied to a concrete well-formed quiz
accepted on the cleanup path. -/
theorem cleanup_enforces_four_options_witness :
    ∃ opts, c4GoodCleanQ.options = some opts ∧ opts.length = 4 :=
  cleanup_enforces_four_options c4GoodQuiz c4GoodAccepted rfl c4GoodCleanQ
    (by simp [c4GoodAccepted]) rfl

/-! ### Claim C2 -/

/-- C2 counterexample: with every fetch returning HTTP success carrying a
malformed envelope (a validation error, not a transport failure),
generateText at the default maxRetries 3 performs 4 fetches before
surfacing the error: the validation error is retried exactly like a
transport error, whereas the claim says such errors are never retried
(which would mean a single fetch). -/
theorem generateText_retries_validation_errors :
    OpenRouterRetry.generateText (fun _ => .success none) 3 false =
      ⟨.error .invalidFormat, 4⟩ ∧ (4 : Nat) ≠ 1 :=
  ⟨rfl, by decide⟩

/-- Helper: the retry loop never performs more fetches than it has
iterations left plus those already performed. -/
theorem generateTextGo_attempts_le (env : Nat → OpenRouterRetry.Attempt)
    (wantJson : Bool) (maxRetries : Nat) :
    ∀ remaining retryCount lastError,
      (OpenRouterRetry.generateTextGo env wantJson maxRetries
        remaining retryCount lastError).attempts ≤ retryCount + remaining := by
  intro remaining
  induction remaining with
  | zero =>
    intro rc le
    rw [OpenRouterRetry.generateTextGo]
    dsimp only
    omega
  | succ rem ih =>
    intro rc le
    cases henv : env rc with
    | rateLimited ra =>
      rw [OpenRouterRetry.generateTextGo, henv]
      exact le_trans (ih (rc + 1) le) (by omega)
    | httpError status body =>
      rw [OpenRouterRetry.generateTextGo, henv]
      dsimp only
      split
      · exact le_trans (ih (rc + 1) le) (by omega)
      · dsimp only
        omega
    | netError msg =>
      rw [OpenRouterRetry.generateTextGo, henv]
      dsimp only
      split
      · exact le_trans (ih (rc + 1) _) (by omega)
      · dsimp only
        omega
    | success content =>
      rw [OpenRouterRetry.generateTextGo, henv]
      cases content with
      | none =>
        dsimp only
        split
        · exact le_trans (ih (rc + 1) _) (by omega)
        · dsimp only
          omega
      | some c =>
        dsimp only
        split
        · split
          · dsimp only
            omega
          · split
            · exact le_trans (ih (rc + 1) _) (by omega)
            · dsimp only
              omega
        · dsimp only
          omega

/-- Helper: when every attempt fails, the loop performs exactly its
remaining budget of fetches and ends in an error. -/
theorem generateTextGo_allfail (env : Nat → OpenRouterRetry.Attempt)
    (wantJson : Bool) (maxRetries : Nat)
    (hf : ∀ k, OpenRouterRetry.attemptSucceeds wantJson (env k) = false) :
    ∀ remaining retryCount lastError,
      retryCount + remaining = maxRetries + 1 →
      (OpenRouterRetry.generateTextGo env wantJson maxRetries
        remaining retryCount lastError).attempts = maxRetries + 1 ∧
      ∃ e, (OpenRouterRetry.generateTextGo env wantJson maxRetries
        remaining retryCount lastError).result = .error e := by
  intro remaining
  induction remaining with
  | zero =>
    intro rc le hinv
    rw [OpenRouterRetry.generateTextGo]
    exact ⟨by dsimp only; omega, le.getD .unknown, rfl⟩
  | succ rem ih =>
    intro rc le hinv
    cases henv : env rc with
    | rateLimited ra =>
      rw [OpenRouterRetry.generateTextGo, henv]
      exact ih (rc + 1) le (by omega)
    | httpError status body =>
      rw [OpenRouterRetry.generateTextGo, henv]
      dsimp only
      split
      · exact ih (rc + 1) le (by omega)
      · rename_i hge
        exact ⟨by dsimp only; omega, .apiError status body, rfl⟩
    | netError msg =>
      rw [OpenRouterRetry.generateTextGo, henv]
      dsimp only
      split
      · exact ih (rc + 1) (some (.network msg)) (by omega)
      · rename_i hge
        exact ⟨by dsimp only; omega, .network msg, rfl⟩
    | success content =>
      cases content with
      | none =>
        rw [OpenRouterRetry.generateTextGo, henv]
        dsimp only
        split
        · exact ih (rc + 1) (some .invalidFormat) (by omega)
        · rename_i hge
          exact ⟨by dsimp only; omega, .invalidFormat, rfl⟩
      | some c =>
        have hspec := hf rc
        rw [henv] at hspec
        cases hwj : wantJson with
        | false =>
          rw [hwj] at hspec
          simp [OpenRouterRetry.attemptSucceeds] at hspec
        | true =>
          subst hwj
          simp only [OpenRouterRetry.attemptSucceeds, if_true] at hspec
          rw [OpenRouterRetry.generateTextGo, henv]
          dsimp only
          cases hext : extractJson (trimL c.toList) with
          | some j =>
            rw [hext] at hspec
            simp at hspec
          | none =>
            simp only [eq_self_iff_true, if_true]
            split
            · exact ih (rc + 1) (some .jsonParseFailed) (by omega)
            · rename_i hge
              exact ⟨by dsimp only; omega, .jsonParseFailed, rfl⟩

/-- C2 amended: inside the Completion Client every failed attempt is
retried with backoff, transport failures (HTTP 429 and other non-success
statuses) and validation or parse failures (missing envelope content,
unextractable JSON) alike; the loop is bounded by maxRetries (at most
maxRetries + 1 fetches, 4 at the default of 3), and when every attempt
fails the error is surfaced to the caller after exactly maxRetries + 1
fetches. -/
theorem generateText_bounded_retries (env : Nat → OpenRouterRetry.Attempt)
    (maxRetries : Nat) (wantJson : Bool) :
    (OpenRouterRetry.generateText env maxRetries wantJson).attempts ≤ maxRetries + 1 ∧
    ((∀ k, OpenRouterRetry.attemptSucceeds wantJson (env k) = false) →
      (OpenRouterRetry.generateText env maxRetries wantJson).attempts = maxRetries + 1 ∧
      ∃ e, (OpenRouterRetry.generateText env maxRetries wantJson).result = .error e) := by
  constructor
  · have h := generateTextGo_attempts_le env wantJson maxRetries (maxRetries + 1) 0 none
    simpa [OpenRouterRetry.generateText] using h
  · intro hf
    exact generateTextGo_allfail env wantJson maxRetries hf (maxRetries + 1) 0 none (by omega)

/-- C2 witness: the amended theorem applied to an environment whose every
fetch fails with HTTP 500. -/
theorem generateText_bounded_retries_witness :
    (OpenRouterRetry.generateText (fun _ => .httpError 500 "server error") 3 true).attempts = 4 ∧
    ∃ e, (OpenRouterRetry.generateText (fun _ => .httpError 500 "server error") 3 true).result =
      .error e :=
  (generateText_bounded_retries (fun _ => .httpError 500 "server error") 3 true).2
    (fun _ => rfl)

/-! ### Claim C5 -/

/-- C5: a missing answer, an empty answer, or an answer blank after
trimming short-circuits grading: score 0, isCorrect false, feedback No
answer provided, and no AI (checkAnswer) call is issued, the per-question
result being independent of the grading oracle. -/
theorem evalQuestion_blank_answer (oracle oracle₂ : String → String → Auth.Evaluation)
    (q : QuizQuestion) (answer : Option String)
    (h : answer = none ∨ ∃ a, answer = some a ∧ trimL a.toList = []) :
    (Auth.evalQuestion oracle q answer).1.score = 0 ∧
    (Auth.evalQuestion oracle q answer).1.isCorrect = false ∧
    (Auth.evalQuestion oracle q answer).1.feedback = "No answer provided" ∧
    (Auth.evalQuestion oracle q answer).2 = 0 ∧
    Auth.evalQuestion oracle q answer = Auth.evalQuestion oracle₂ q answer := by
  rcases h with rfl | ⟨a, rfl, hblank⟩
  · exact ⟨rfl, rfl, rfl, rfl, rfl⟩
  · have h₀ : ∀ og : String → String → Auth.Evaluation,
        Auth.evalQuestion og q (some a) =
          (⟨false, "No answer provided", 0, ""⟩, 0) := by
      intro og
      unfold Auth.evalQuestion
      dsimp only
      rw [if_pos hblank]
    rw [h₀ oracle, h₀ oracle₂]
    exact ⟨rfl, rfl, rfl, rfl, rfl⟩

/-- C5 witness: the theorem applied to a concrete short-answer question
with a whitespace-only submission. -/
theorem evalQuestion_blank_answer_witness :
    (Auth.evalQuestion c5Oracle c5Question (some "   ")).1.score = 0 ∧
    (Auth.evalQuestion c5Oracle c5Question (some "   ")).1.feedback = "No answer provided" ∧
    (Auth.evalQuestion c5Oracle c5Question (some "   ")).2 = 0 := by
  have h := evalQuestion_blank_answer c5Oracle (fun _ _ => ⟨false, "other", 0⟩)
    c5Question (some "   ") (Or.inr ⟨"   ", rfl, by decide⟩)
  exact ⟨h.1, h.2.2.1, h.2.2.2.1⟩

/-! ### Claim C6 -/

/-- C6 counterexample: the submitted answer equals the stored answer after
trimming (it differs only by a leading space), so under the claimed
trimmed comparison it would score 1, but evaluateQuizAnswers compares the
raw strings and yields score 0 and isCorrect false. -/
theorem evaluateQuizAnswers_compares_untrimmed :
    trimL " A) First option".toList = trimL c6Question.answer.toList ∧
    ((Auth.evaluateQuizAnswers c6Oracle 0 "quiz-1" c6Answers c6Quiz).1.answers.map
      (fun e => e.2.score)) = [0] ∧
    ((Auth.evaluateQuizAnswers c6Oracle 0 "quiz-1" c6Answers c6Quiz).1.answers.map
      (fun e => e.2.isCorrect)) = [false] := by
  exact ⟨by decide, rfl, rfl⟩

/-- C6 amended: multiple-choice grading is deterministic exact string
equality with no AI call in both graders, but the check-answer route
compares the trimmed strings while evaluateQuizAnswers compares the raw
untrimmed strings; an exactly matching non-blank answer scores 1 and is
correct in either. -/
theorem mc_grading_deterministic (ai ai₂ : CheckAnswerRoute.AIOutcome)
    (oracle oracle₂ : String → String → Auth.Evaluation)
    (qid qtext s c : String) (q : QuizQuestion)
    (hq : q.type = .multipleChoice) (hs : trimL s.toList ≠ [])
    (h₁ : qid ≠ "") (h₂ : qtext ≠ "") (h₃ : s ≠ "") (h₄ : c ≠ "") :
    (CheckAnswerRoute.checkAnswerPOST ai qid qtext s c "multipleChoice" =
      .graded { score := if trimL s.toList = trimL c.toList then 1 else 0,
                correct := decide (trimL s.toList = trimL c.toList),
                feedback := if trimL s.toList = trimL c.toList then "Correct! Well done!"
                            else "Incorrect. Please review the options and try again." }) ∧
    CheckAnswerRoute.checkAnswerPOST ai qid qtext s c "multipleChoice" =
      CheckAnswerRoute.checkAnswerPOST ai₂ qid qtext s c "multipleChoice" ∧
    (Auth.evalQuestion oracle q (some s)).1.score = (if s = q.answer then 1 else 0) ∧
    (Auth.evalQuestion oracle q (some s)).1.isCorrect = decide (s = q.answer) ∧
    (Auth.evalQuestion oracle q (some s)).2 = 0 ∧
    Auth.evalQuestion oracle q (some s) = Auth.evalQuestion oracle₂ q (some s) ∧
    (s = q.answer →
      (Auth.evalQuestion oracle q (some s)).1.score = 1 ∧
      (Auth.evalQuestion oracle q (some s)).1.isCorrect = true) := by
  have hroute : ∀ a : CheckAnswerRoute.AIOutcome,
      CheckAnswerRoute.checkAnswerPOST a qid qtext s c "multipleChoice" =
        .graded { score := if trimL s.toList = trimL c.toList then 1 else 0,
                  correct := decide (trimL s.toList = trimL c.toList),
                  feedback := if trimL s.toList = trimL c.toList then "Correct! Well done!"
                              else "Incorrect. Please review the options and try again." } := by
    intro a
    unfold CheckAnswerRoute.checkAnswerPOST
    rw [if_neg (by simp [h₁, h₂, h₃, h₄]), if_pos rfl]
  have heval : ∀ og : String → String → Auth.Evaluation,
      Auth.evalQuestion og q (some s) =
        (⟨decide (s = q.answer),
          if s = q.answer then "Correct!"
          else "Incorrect. The correct answer is: " ++ q.answer,
          if s = q.answer then 1 else 0, s⟩, 0) := by
    intro og
    unfold Auth.evalQuestion
    dsimp only
    rw [if_neg hs, if_pos hq]
  refine ⟨hroute ai, (hroute ai).trans (hroute ai₂).symm, ?_, ?_, ?_, ?_, ?_⟩
  · rw [heval oracle]
  · rw [heval oracle]
  · rw [heval oracle]
  · rw [heval oracle, heval oracle₂]
  · intro heq
    rw [heval oracle]
    simp [heq]

/-- C6 witness: the amended theorem applied at concrete inputs where the
submitted answer equals the stored answer exactly. -/
theorem mc_grading_deterministic_witness :
    (Auth.evalQuestion c6Oracle c6Question (some "A) First option")).1.score = 1 ∧
    (Auth.evalQuestion c6Oracle c6Question (some "A) First option")).1.isCorrect = true := by
  have h := mc_grading_deterministic .genError .unparseable c6Oracle c6Oracle
    "1" "Pick the first option" "A) First option" "A) First option" c6Question
    rfl (by decide) (by decide) (by decide) (by decide) (by decide)
  exact h.2.2.2.2.2.2 rfl

/-! ### Claim C7 -/

/-- Helper: JavaScript object assignment appends when the key is absent. -/
theorem upsert_not_mem {β : Type} (k : String) (v : β) :
    ∀ l : List (String × β), k ∉ l.map Prod.fst → upsert k v l = l ++ [(k, v)] := by
  intro l
  induction l with
  | nil => intro _; rfl
  | cons p t ih =>
    intro hk
    obtain ⟨k₁, v₁⟩ := p
    have hne : ¬ k₁ = k := fun heq => hk (by simp [heq])
    rw [upsert, if_neg hne, ih (fun hmem => hk (by simp [hmem]))]
    rfl

/-- Helper: with pairwise distinct question ids, the evaluation loop
produces exactly one entry per question, in order, and sums the per
question AI call counts. -/
theorem evalFold_entries (oracle : String → String → Auth.Evaluation)
    (answers : List (String × String)) :
    ∀ (qs : List QuizQuestion) (acc : List (String × Auth.AnswerResult)) (calls : Nat),
      (∀ q ∈ qs, q.id ∉ acc.map Prod.fst) →
      (qs.map (fun q => q.id)).Nodup →
      Auth.evalFold oracle answers (acc, calls) qs =
        (acc ++ qs.map (fun q =>
          (q.id, (Auth.evalQuestion oracle q (List.lookup q.id answers)).1)),
         calls + (qs.map (fun q =>
          (Auth.evalQuestion oracle q (List.lookup q.id answers)).2)).sum) := by
  intro qs
  induction qs with
  | nil =>
    intro acc calls _ _
    simp [Auth.evalFold]
  | cons q t ih =>
    intro acc calls hdis hnd
    rcases hres : Auth.evalQuestion oracle q (List.lookup q.id answers) with ⟨res, cnt⟩
    rw [Auth.evalFold, hres]
    dsimp only
    have hknot : q.id ∉ acc.map Prod.fst := hdis q (List.mem_cons_self q t)
    rw [upsert_not_mem q.id res acc hknot]
    have hdis₂ : ∀ p ∈ t, p.id ∉ (acc ++ [(q.id, res)]).map Prod.fst := by
      intro p hp hmem
      rw [List.map_append] at hmem
      rcases List.mem_append.mp hmem with hm | hm
      · exact hdis p (List.mem_cons_of_mem q hp) hm
      · simp only [List.map_cons, List.map_nil, List.mem_singleton] at hm
        have hpid : q.id ∈ t.map (fun q => q.id) := by
          rw [← hm]
          exact List.mem_map_of_mem _ hp
        exact (List.nodup_cons.mp hnd).1 hpid
    rw [ih (acc ++ [(q.id, res)]) (calls + cnt) hdis₂ (List.nodup_cons.mp hnd).2]
    rw [List.map_cons, List.map_cons, List.sum_cons, hres]
    dsimp only
    rw [List.append_assoc]
    simp [Nat.add_assoc]

/-- C7: for a quiz with a non-empty, non-duplicated question list, the
aggregate score is the rounded percentage of the per-question score sum:
round of 100 times the score sum over the question count. -/
theorem evaluateQuizAnswers_overall_score (oracle : String → String → Auth.Evaluation)
    (now : Nat) (quizId : String) (answers : List (String × String)) (quiz : QuizData)
    (hne : quiz.questions ≠ [])
    (hnodup : (quiz.questions.map (fun q => q.id)).Nodup) :
    (Auth.evaluateQuizAnswers oracle now quizId answers quiz).1.overall.score =
      round (100 * ((quiz.questions.map (fun q =>
        (Auth.evalQuestion oracle q (List.lookup q.id answers)).1.score)).sum) /
        (quiz.questions.length : ℚ)) := by
  rcases hfold : Auth.evalFold oracle answers ([], 0) quiz.questions with ⟨entries, calls⟩
  have hent := evalFold_entries oracle answers quiz.questions [] 0 (by simp) hnodup
  rw [hfold] at hent
  have hentries : entries = quiz.questions.map (fun q =>
      (q.id, (Auth.evalQuestion oracle q (List.lookup q.id answers)).1)) := by
    have h₁ := congrArg Prod.fst hent
    simpa using h₁
  unfold Auth.evaluateQuizAnswers
  rw [hfold]
  dsimp only
  rw [hentries, List.map_map]
  rw [div_mul_eq_mul_div, mul_comm]
  rfl

/-- C7 witness: the theorem applied to the concrete four-question quiz
with scores 1, 1, 0 and 1/2, giving round(100 * 2.5 / 4) = 63. -/
theorem evaluateQuizAnswers_overall_score_witness :
    (Auth.evaluateQuizAnswers c7Oracle 0 "quiz-7" c7Answers c7Quiz).1.overall.score = 63 := by
  rw [evaluateQuizAnswers_overall_score c7Oracle 0 "quiz-7" c7Answers c7Quiz
    (by decide) (by decide)]
  have hmap : c7Quiz.questions.map (fun q =>
      (Auth.evalQuestion c7Oracle q (List.lookup q.id c7Answers)).1.score) =
      [1, 1, 0, 1/2] := rfl
  rw [hmap]
  have hlen : (c7Quiz.questions.length : ℚ) = 4 := rfl
  rw [hlen]
  simp only [List.sum_cons, List.sum_nil]
  norm_num [round_eq]

/-! ### Claim C8 -/

/-- Helper: the Boolean substring test of the fallback decides contiguous
occurrence. -/
theorem isSubstr_iff (needle hay : List Char) :
    isSubstr needle hay = true ↔ OccursIn needle hay := by
  induction hay with
  | nil =>
    rw [isSubstr]
    simp [occ_nil, List.isEmpty_iff]
  | cons c t ih =>
    rw [isSubstr, Bool.or_eq_true, occ_cons, ih]
    constructor
    · rintro (hp | ho)
      · exact Or.inl (( List.isPrefixOf_iff_prefix).mp hp)
      · exact Or.inr ho
    · rintro (hp | ho)
      · exact Or.inl (( List.isPrefixOf_iff_prefix).mpr hp)
      · exact Or.inr ho

/-- Helper: the keyword-overlap test of the fallback holds exactly when
some word of the normalized expected answer of length at least 4 occurs in
the normalized student answer. -/
theorem containsKeywords_iff (st co : List Char) :
    ((splitOnSpace co).any (fun w => decide (3 < w.length) && isSubstr w st) = true) ↔
      ∃ w ∈ splitOnSpace co, 4 ≤ w.length ∧ OccursIn w st := by
  rw [List.any_eq_true]
  constructor
  · rintro ⟨w, hw, hcond⟩
    rw [Bool.and_eq_true] at hcond
    have hlen : 3 < w.length := of_decide_eq_true hcond.1
    exact ⟨w, hw, by omega, (isSubstr_iff w st).mp hcond.2⟩
  · rintro ⟨w, hw, hlen, hocc⟩
    refine ⟨w, hw, ?_⟩
    rw [Bool.and_eq_true]
    exact ⟨decide_eq_true (by omega), (isSubstr_iff w st).mpr hocc⟩

/-- C8: when the AI call throws or its response fails to parse or
validate, short-answer grading falls back deterministically and always
returns a result: score 1 exactly on the trimmed case-insensitive match,
otherwise 1/2 exactly when some word of the normalized expected answer
longer than 3 characters occurs in the normalized student answer,
otherwise 0. -/
theorem shortAnswer_fallback (ai : CheckAnswerRoute.AIOutcome)
    (qid qtext s c qtype : String)
    (hfail : ai = .genError ∨ ai = .unparseable)
    (hmc : qtype ≠ "multipleChoice")
    (h₁ : qid ≠ "") (h₂ : qtext ≠ "") (h₃ : s ≠ "") (h₄ : c ≠ "") (h₅ : qtype ≠ "") :
    CheckAnswerRoute.checkAnswerPOST ai qid qtext s c qtype =
      .graded (CheckAnswerRoute.fallbackGrade s c) ∧
    ((CheckAnswerRoute.fallbackGrade s c).score = 0 ∨
     (CheckAnswerRoute.fallbackGrade s c).score = 1/2 ∨
     (CheckAnswerRoute.fallbackGrade s c).score = 1) ∧
    ((CheckAnswerRoute.fallbackGrade s c).score = 1 ↔
      toLowerL (trimL s.toList) = toLowerL (trimL c.toList)) ∧
    (toLowerL (trimL s.toList) ≠ toLowerL (trimL c.toList) →
      ((CheckAnswerRoute.fallbackGrade s c).score = 1/2 ↔
        ∃ w ∈ splitOnSpace (toLowerL (trimL c.toList)),
          4 ≤ w.length ∧ OccursIn w (toLowerL (trimL s.toList)))) := by
  have hpost : CheckAnswerRoute.checkAnswerPOST ai qid qtext s c qtype =
      .graded (CheckAnswerRoute.fallbackGrade s c) := by
    unfold CheckAnswerRoute.checkAnswerPOST
    rw [if_neg (by simp [h₁, h₂, h₃, h₄, h₅]), if_neg hmc]
    rcases hfail with rfl | rfl
    · rfl
    · rfl
  by_cases hex : toLowerL (trimL s.toList) = toLowerL (trimL c.toList)
  · have hscore : (CheckAnswerRoute.fallbackGrade s c).score = 1 := by
      unfold CheckAnswerRoute.fallbackGrade
      dsimp only
      rw [if_pos hex]
    refine ⟨hpost, Or.inr (Or.inr hscore), ?_, ?_⟩
    · rw [hscore]
      exact iff_of_true rfl hex
    · intro hne
      exact absurd hex hne
  · by_cases hkw : (splitOnSpace (toLowerL (trimL c.toList))).any
        (fun w => decide (3 < w.length) && isSubstr w (toLowerL (trimL s.toList))) = true
    · have hscore : (CheckAnswerRoute.fallbackGrade s c).score = 1/2 := by
        unfold CheckAnswerRoute.fallbackGrade
        dsimp only
        rw [if_neg hex, if_pos hkw]
      refine ⟨hpost, Or.inr (Or.inl hscore), ?_, ?_⟩
      · rw [hscore]
        exact iff_of_false (by norm_num) hex
      · intro _
        rw [hscore]
        exact iff_of_true rfl ((containsKeywords_iff _ _).mp hkw)
    · have hscore : (CheckAnswerRoute.fallbackGrade s c).score = 0 := by
        unfold CheckAnswerRoute.fallbackGrade
        dsimp only
        rw [if_neg hex, if_neg (by simpa using hkw)]
      refine ⟨hpost, Or.inl hscore, ?_, ?_⟩
      · rw [hscore]
        exact iff_of_false (by norm_num) hex
      · intro _
        rw [hscore]
        exact iff_of_false (by norm_num)
          (fun habs => hkw ((containsKeywords_iff _ _).mpr habs))

/-- C8 witness: the theorem applied to a concrete short-answer grading
where the AI call threw and a keyword of length at least 4 overlaps. -/
theorem shortAnswer_fallback_witness :
    CheckAnswerRoute.checkAnswerPOST .genError "1" "Describe the motion"
      "the velocity increases" "Velocity increases over time" "shortAnswer" =
      .graded (CheckAnswerRoute.fallbackGrade "the velocity increases"
        "Velocity increases over time") ∧
    ((CheckAnswerRoute.fallbackGrade "the velocity increases"
        "Velocity increases over time").score = 0 ∨
     (CheckAnswerRoute.fallbackGrade "the velocity increases"
        "Velocity increases over time").score = 1/2 ∨
     (CheckAnswerRoute.fallbackGrade "the velocity increases"
        "Velocity increases over time").score = 1) := by
  have h := shortAnswer_fallback .genError "1" "Describe the motion"
    "the velocity increases" "Velocity increases over time" "shortAnswer"
    (Or.inl rfl) (by decide) (by decide) (by decide) (by decide) (by decide) (by decide)
  exact ⟨h.1, h.2.1⟩

end StudyAi
